import Mathlib

/-!
Shallow embedding of the TogoMQ Go SDK (togomq-sdk-go): error taxonomy and
gRPC error translation (errors.go), message/options model (message.go),
configuration with option pattern and validation (config.go), and the
client operations Pub / PubBatch / Sub / CountMessages (client.go).

Go machine integers are modelled as ℤ; the Go `int32(x)` conversion is
modelled explicitly as two's-complement truncation. Go channels are
modelled as an explicit buffer plus a closed flag; the subscribe pump
goroutine is modelled as a function from the sequence of events it
observes (stream receives and the outcome of each delivery handoff) to
the trace of externally visible actions it performs.
-/

namespace TogoMQ

/-- gRPC status codes (google.golang.org/grpc/codes). -/
inductive GrpcCode where
  | ok
  | cancelledCode
  | unknown
  | invalidArgument
  | deadlineExceeded
  | notFound
  | alreadyExists
  | permissionDenied
  | resourceExhausted
  | failedPrecondition
  | aborted
  | outOfRange
  | unimplemented
  | internal
  | unavailable
  | dataLoss
  | unauthenticated
deriving DecidableEq, Repr

/-- Model of a non-nil Go `error` value as seen by the SDK: either an error
carrying a gRPC status (recognized by `status.FromError`) or any other
error value (not recognized as a transport status). -/
inductive GoErr where
  | grpcStatus (code : GrpcCode) (msg : String)
  | plain (msg : String)
deriving DecidableEq, Repr

/-- Model of `status.FromError` restricted to non-nil input: returns the
status (code and message) when the error is recognized as a transport
status, and `none` when it is not (the `ok == false` branch). -/
def statusFromError : GoErr → Option (GrpcCode × String)
  | .grpcStatus c m => some (c, m)
  | .plain _ => none

/-- Error code constants from errors.go. -/
def ErrCodeConnection : String := "CONNECTION_ERROR"

/-- Error code constant AUTH_ERROR from errors.go. -/
def ErrCodeAuth : String := "AUTH_ERROR"

/-- Error code constant VALIDATION_ERROR from errors.go. -/
def ErrCodeValidation : String := "VALIDATION_ERROR"

/-- Error code constant PUBLISH_ERROR from errors.go. -/
def ErrCodePublish : String := "PUBLISH_ERROR"

/-- Error code constant SUBSCRIBE_ERROR from errors.go. -/
def ErrCodeSubscribe : String := "SUBSCRIBE_ERROR"

/-- Error code constant STREAM_ERROR from errors.go. -/
def ErrCodeStream : String := "STREAM_ERROR"

/-- Error code constant CONFIG_ERROR from errors.go. -/
def ErrCodeConfiguration : String := "CONFIG_ERROR"

/-- TogoMQError from errors.go: category code, human-readable message, and
the wrapped underlying error (`nil` modelled as `none`). -/
structure TogoMQError where
  Code : String
  Message : String
  Err : Option GoErr
deriving DecidableEq, Repr

/-- NewError from errors.go. -/
def NewError (code message : String) (err : Option GoErr) : TogoMQError :=
  ⟨code, message, err⟩

/-- The `Unwrap` method of TogoMQError: returns the underlying error. -/
def TogoMQError.unwrapErr (e : TogoMQError) : Option GoErr := e.Err

/-- The non-nil branch of WrapGRPCError from errors.go: translate a non-nil
Go error using the transport's status classification. -/
def wrapNonNil (e : GoErr) (context : String) : TogoMQError :=
  match statusFromError e with
  | none => NewError ErrCodeStream context (some e)
  | some (c, m) =>
    let code :=
      match c with
      | .unauthenticated => ErrCodeAuth
      | .invalidArgument => ErrCodeValidation
      | .unavailable => ErrCodeConnection
      | _ => ErrCodeStream
    NewError code (context ++ ": " ++ m) (some e)

/-- WrapGRPCError from errors.go, with Go's nilable `error` argument and
result modelled as `Option`. -/
def WrapGRPCError (err : Option GoErr) (context : String) : Option TogoMQError :=
  match err with
  | none => none
  | some e => some (wrapNonNil e context)

/-- Byte slices are modelled as lists of bytes. -/
abbrev Bytes := List UInt8

/-- Go's `map[string]string` modelled as an association list (only carried
through projections by the SDK, never inspected). -/
abbrev VarMap := List (String × String)

/-- Message from message.go. -/
structure Message where
  Topic : String
  Body : Bytes
  Variables : VarMap
  Postpone : Int
  Retention : Int
  UUID : String
deriving DecidableEq, Repr

/-- NewMessage from message.go: topic, body, and an initialized empty
variables mapping. -/
def NewMessage (topic : String) (body : Bytes) : Message :=
  { Topic := topic, Body := body, Variables := [], Postpone := 0,
    Retention := 0, UUID := "" }

/-- WithVariables from message.go: replaces the variables mapping. -/
def Message.withVariables (m : Message) (vars : VarMap) : Message :=
  { m with Variables := vars }

/-- WithPostpone from message.go. -/
def Message.withPostpone (m : Message) (postpone : Int) : Message :=
  { m with Postpone := postpone }

/-- WithRetention from message.go. -/
def Message.withRetention (m : Message) (retention : Int) : Message :=
  { m with Retention := retention }

/-- The wire request shape mqv1.PubMessageRequest. -/
structure PubMessageRequest where
  Topic : String
  Body : Bytes
  Variables : VarMap
  Postpone : Int
  Retention : Int
deriving DecidableEq, Repr

/-- toPubRequest from message.go: field-for-field projection. -/
def Message.toPubRequest (m : Message) : PubMessageRequest :=
  { Topic := m.Topic, Body := m.Body, Variables := m.Variables,
    Postpone := m.Postpone, Retention := m.Retention }

/-- The wire response shape mqv1.SubMessageResponse. -/
structure SubMessageResponse where
  Topic : String
  Uuid : String
  Body : Bytes
  Variables : VarMap
deriving DecidableEq, Repr

/-- fromSubResponse from message.go: field-for-field projection. -/
def fromSubResponse (resp : SubMessageResponse) : Message :=
  { Topic := resp.Topic, UUID := resp.Uuid, Body := resp.Body,
    Variables := resp.Variables, Postpone := 0, Retention := 0 }

/-- SubscribeOptions from message.go. -/
structure SubscribeOptions where
  Topic : String
  Batch : Int
  SpeedPerSec : Int
deriving DecidableEq, Repr

/-- NewSubscribeOptions from message.go. -/
def NewSubscribeOptions (topic : String) : SubscribeOptions :=
  { Topic := topic, Batch := 0, SpeedPerSec := 0 }

/-- PubResponse from message.go. -/
structure PubResponse where
  MessagesReceived : Int
deriving DecidableEq, Repr

/-- Config from config.go (the variant the client code compiles against,
with TLS and keepalive fields). Go `int`, `int32` and `time.Duration`
values are modelled as ℤ. -/
structure Config where
  Host : String
  Port : Int
  LogLevel : String
  Token : String
  UseTLS : Bool
  MaxMessageSize : Int
  InitialWindowSize : Int
  InitialConnWindowSize : Int
  WriteBufferSize : Int
  ReadBufferSize : Int
  KeepaliveTime : Int
  KeepaliveTimeout : Int
deriving DecidableEq, Repr

/-- One second as a Go `time.Duration` (nanoseconds). -/
def second : Int := 1000000000

/-- Go's `unicode.IsSpace` on the Latin-1 range, the characters
`strings.TrimSpace` trims in practice here ( '\t', '\n', vertical tab,
form feed, '\r', ' ', U+0085, U+00A0; other Unicode white space never
appears in the strings the claims exercise). -/
def isSpaceGo (c : Char) : Bool :=
  c = ' ' || c = '\t' || c = '\n' || c = '\x0B' || c = '\x0C' || c = '\r' ||
  c = '\u0085' || c = '\u00A0'

/-- Go's `strings.TrimSpace`: drop white space from both ends. -/
def trimSpace (s : String) : String :=
  String.mk (((s.data.dropWhile isSpaceGo).reverse.dropWhile isSpaceGo).reverse)

/-- DefaultConfig from config.go. -/
def DefaultConfig : Config :=
  { Host := "q.togomq.io"
    Port := 5123
    LogLevel := "info"
    Token := ""
    UseTLS := true
    MaxMessageSize := 52428800
    InitialWindowSize := 128 * 1024 * 1024
    InitialConnWindowSize := 128 * 1024 * 1024
    WriteBufferSize := 2 * 1024 * 1024
    ReadBufferSize := 2 * 1024 * 1024
    KeepaliveTime := 60 * second
    KeepaliveTimeout := 20 * second }

/-- Go's `int32(x)` conversion on a (64-bit) int: two's-complement
truncation to 32 bits. -/
def toInt32 (x : Int) : Int := (x + 2 ^ 31) % 2 ^ 32 - 2 ^ 31

/-- Validate from config.go: returns the message of the first violated
invariant, in source order, or `none` when the configuration is valid. -/
def Config.validate (c : Config) : Option String :=
  if trimSpace c.Host = "" then some "host cannot be empty"
  else if c.Port ≤ 0 ∨ 65535 < c.Port then
    some "port must be between 1 and 65535"
  else if trimSpace c.Token = "" then some "token is required"
  else if c.MaxMessageSize ≤ 0 then
    some "max message size must be greater than 0"
  else if c.InitialWindowSize ≤ 0 then
    some "initial window size must be greater than 0"
  else if c.InitialConnWindowSize ≤ 0 then
    some "initial connection window size must be greater than 0"
  else if c.WriteBufferSize ≤ 0 then
    some "write buffer size must be greater than 0"
  else if c.ReadBufferSize ≤ 0 then
    some "read buffer size must be greater than 0"
  else if c.KeepaliveTime ≤ 0 then
    some "keepalive time must be greater than 0"
  else if c.KeepaliveTimeout ≤ 0 then
    some "keepalive timeout must be greater than 0"
  else none

/-- Address from config.go: formats host and port. -/
def Config.address (c : Config) : String :=
  c.Host ++ ":" ++ toString c.Port

/-- ConfigOption from config.go: a Config mutation, modelled functionally. -/
abbrev ConfigOption := Config → Config

/-- WithHost from config.go. -/
def WithHost (host : String) : ConfigOption := fun c => { c with Host := host }

/-- WithPort from config.go. -/
def WithPort (port : Int) : ConfigOption := fun c => { c with Port := port }

/-- WithLogLevel from config.go. -/
def WithLogLevel (level : String) : ConfigOption :=
  fun c => { c with LogLevel := level }

/-- WithToken from config.go. -/
def WithToken (token : String) : ConfigOption :=
  fun c => { c with Token := token }

/-- WithUseTLS from config.go. -/
def WithUseTLS (useTLS : Bool) : ConfigOption :=
  fun c => { c with UseTLS := useTLS }

/-- WithMaxMessageSize from config.go: sets the max message size and also
updates both window sizes to match, through Go's `int32(size)`
conversion. -/
def WithMaxMessageSize (size : Int) : ConfigOption := fun c =>
  { c with MaxMessageSize := size
           InitialWindowSize := toInt32 size
           InitialConnWindowSize := toInt32 size }

/-- WithInitialWindowSize from config.go. -/
def WithInitialWindowSize (size : Int) : ConfigOption :=
  fun c => { c with InitialWindowSize := size }

/-- WithInitialConnWindowSize from config.go. -/
def WithInitialConnWindowSize (size : Int) : ConfigOption :=
  fun c => { c with InitialConnWindowSize := size }

/-- WithWriteBufferSize from config.go. -/
def WithWriteBufferSize (size : Int) : ConfigOption :=
  fun c => { c with WriteBufferSize := size }

/-- WithReadBufferSize from config.go. -/
def WithReadBufferSize (size : Int) : ConfigOption :=
  fun c => { c with ReadBufferSize := size }

/-- WithKeepaliveTime from config.go. -/
def WithKeepaliveTime (duration : Int) : ConfigOption :=
  fun c => { c with KeepaliveTime := duration }

/-- WithKeepaliveTimeout from config.go. -/
def WithKeepaliveTimeout (duration : Int) : ConfigOption :=
  fun c => { c with KeepaliveTimeout := duration }

/-- NewConfig from config.go: applies the option list, in order, over the
defaults. -/
def NewConfig (opts : List ConfigOption) : Config :=
  opts.foldl (fun cfg opt => opt cfg) DefaultConfig

/-- The transport-connection settings that NewClient (client.go) passes to
`grpc.NewClient`: TLS credentials, max send/receive frame sizes, the two
flow-control window sizes, the two buffer sizes, and the keepalive
parameters. -/
structure DialOptions where
  useTLS : Bool
  maxRecvMsgSize : Int
  maxSendMsgSize : Int
  initialWindowSize : Int
  initialConnWindowSize : Int
  writeBufferSize : Int
  readBufferSize : Int
  keepaliveTime : Int
  keepaliveTimeout : Int
  permitWithoutStream : Bool
deriving DecidableEq, Repr

/-- The dial options NewClient (client.go) builds from a config. The code
creates `credentials.NewTLS(nil)` unconditionally, so `useTLS` is `true`
regardless of `Config.UseTLS`; every other setting is read from the
config. -/
def dialOptionsOf (c : Config) : DialOptions :=
  { useTLS := true
    maxRecvMsgSize := c.MaxMessageSize
    maxSendMsgSize := c.MaxMessageSize
    initialWindowSize := c.InitialWindowSize
    initialConnWindowSize := c.InitialConnWindowSize
    writeBufferSize := c.WriteBufferSize
    readBufferSize := c.ReadBufferSize
    keepaliveTime := c.KeepaliveTime
    keepaliveTimeout := c.KeepaliveTimeout
    permitWithoutStream := false }

/-- NewClient from client.go, up to the transport dial: rejects an invalid
config with a validation-category error wrapping the Validate message, and
otherwise dials with `dialOptionsOf` (the nil-config branch and a transport
dial failure are outside this model of the settings projection). -/
def NewClient (c : Config) : Except TogoMQError DialOptions :=
  match c.validate with
  | some msg =>
    .error (NewError ErrCodeValidation "invalid configuration"
      (some (.plain msg)))
  | none => .ok (dialOptionsOf c)

/-- A Go channel of messages: buffered contents in FIFO order plus the
closed flag. Capacity is not modelled (it is unobservable for a channel
that is closed before being drained). -/
structure MsgChan where
  buf : List Message
  closed : Bool
deriving DecidableEq, Repr

/-- A (non-blocking) channel send: appends to the buffer. -/
def chanSend (ch : MsgChan) (m : Message) : MsgChan :=
  { ch with buf := ch.buf ++ [m] }

/-- Closing a channel. -/
def chanClose (ch : MsgChan) : MsgChan := { ch with closed := true }

/-- The transport side of one streaming-publish call: whether creating the
stream fails, whether the i-th `stream.Send` fails, and the outcome of
`stream.CloseAndRecv` (either a transport error or the server's
MessagesReceived count). -/
structure PubStream where
  createErr : Option GoErr
  sendErr : Nat → Option GoErr
  closeResp : Except GoErr Int

/-- The observable outcome of one streaming-publish call: the requests
handed to `stream.Send` in order, whether the client closed its half of
the stream and waited for the acknowledgement (`CloseAndRecv`), and the
returned value or error. -/
structure PubOutcome where
  sent : List PubMessageRequest
  closedAndRecv : Bool
  result : Except TogoMQError PubResponse

/-- The send loop of Pub (client.go): draws messages in order, rejects the
first empty topic with a validation error before sending it, and stops at
the first transport send failure. Returns the requests sent and the loop's
verdict. -/
def pubSendLoop (st : PubStream) :
    Nat → List PubMessageRequest → List Message →
    List PubMessageRequest × Except TogoMQError Unit
  | _, sent, [] => (sent, .ok ())
  | i, sent, m :: rest =>
    if m.Topic = "" then
      (sent, .error (NewError ErrCodeValidation "message topic is required" none))
    else
      match st.sendErr i with
      | some e => (sent, .error (wrapNonNil e "failed to send message"))
      | none => pubSendLoop st (i + 1) (sent ++ [m.toPubRequest]) rest

/-- Pub from client.go: create the publish stream, drain the input channel
through the send loop, then close-and-receive for the acknowledgement.
`none` when the input channel is not closed (the drain would block waiting
for a producer, so the call's outcome is not determined by the channel
contents alone). -/
def Pub (st : PubStream) (ch : MsgChan) : Option PubOutcome :=
  if ch.closed = false then none
  else
    match st.createErr with
    | some e =>
      some ⟨[], false, .error (wrapNonNil e "failed to create publish stream")⟩
    | none =>
      match pubSendLoop st 0 [] ch.buf with
      | (sent, .error te) => some ⟨sent, false, .error te⟩
      | (sent, .ok ()) =>
        match st.closeResp with
        | .error e =>
          some ⟨sent, true,
            .error (wrapNonNil e "failed to receive publish response")⟩
        | .ok n => some ⟨sent, true, .ok ⟨n⟩⟩

/-- PubBatch from client.go: make a channel, send every slice element into
it in order, close it, and delegate to Pub. -/
def PubBatch (st : PubStream) (messages : List Message) : Option PubOutcome :=
  Pub st (chanClose (messages.foldl chanSend ⟨[], false⟩))

/-- One event observed by the subscribe pump goroutine (client.go): a
successfully received frame together with the outcome of its delivery
handoff (`accepted = true` when the unbuffered message channel accepted
the value, `false` when the call's context was cancelled first), a clean
end-of-stream (`stream.Recv` returned io.EOF), or any other receive
failure. -/
inductive SubEvent where
  | frame (resp : SubMessageResponse) (accepted : Bool)
  | eofEnd
  | recvFail (e : GoErr)
deriving DecidableEq, Repr

/-- An externally visible action of the subscribe pump: delivering a
message on the message channel, pushing an error onto the single-slot
error channel, or closing one of the two channels. -/
inductive PumpAct where
  | deliver (m : Message)
  | pushErr (e : TogoMQError)
  | closeErrChan
  | closeMsgChan
deriving DecidableEq, Repr

/-- The subscribe pump goroutine of Sub (client.go) as a trace semantics:
given the finite sequence of events the pump observes, the ordered trace
of actions it performs, or `none` when the event sequence ends with the
pump still blocked in `stream.Recv` (no termination observed). The two
deferred closes run in LIFO order: the error channel closes first, then
the message channel. -/
def subPump : List SubEvent → Option (List PumpAct)
  | [] => none
  | .eofEnd :: _ => some [.closeErrChan, .closeMsgChan]
  | .recvFail e :: _ =>
    some [.pushErr (wrapNonNil e "failed to receive message"),
      .closeErrChan, .closeMsgChan]
  | .frame r true :: rest =>
    (subPump rest).map (fun tr => .deliver (fromSubResponse r) :: tr)
  | .frame _ false :: _ => some [.closeErrChan, .closeMsgChan]

/-- Why a terminating pump run terminated: clean end-of-stream, context
cancellation during a delivery handoff, or a receive failure. -/
inductive PumpCause where
  | eofClean
  | cancelledCtx
  | failed (e : GoErr)
deriving DecidableEq, Repr

/-- The termination cause determined by an event sequence (`none` when the
pump does not terminate on it). -/
def causeOf : List SubEvent → Option PumpCause
  | [] => none
  | .frame _ true :: rest => causeOf rest
  | .frame _ false :: _ => some .cancelledCtx
  | .eofEnd :: _ => some .eofClean
  | .recvFail e :: _ => some (.failed e)

/-- The errors a pump trace pushes onto the error channel, in order. -/
def errsPushed (tr : List PumpAct) : List TogoMQError :=
  tr.filterMap fun a =>
    match a with
    | .pushErr e => some e
    | _ => none

/-- The messages a pump trace delivers on the message channel, in order. -/
def deliveredMsgs (tr : List PumpAct) : List Message :=
  tr.filterMap fun a =>
    match a with
    | .deliver m => some m
    | _ => none

/-- Whether a pump trace closes the error channel. -/
def errChanClosed (tr : List PumpAct) : Bool :=
  tr.any fun a =>
    match a with
    | .closeErrChan => true
    | _ => false

/-- Whether a pump trace closes the message channel. -/
def msgChanClosed (tr : List PumpAct) : Bool :=
  tr.any fun a =>
    match a with
    | .closeMsgChan => true
    | _ => false

/-- The synchronous prefix of Sub (client.go), before the pump goroutine
starts: local topic validation, then the SubMessage stream creation.
`rpcIssued` records whether the transport was touched;
`streamRes = some e` models a stream-creation failure. -/
structure SubAttempt where
  rpcIssued : Bool
  result : Except TogoMQError Unit
deriving Repr

/-- Sub from client.go up to returning the channel pair: an empty topic is
rejected locally with a validation error before the stream is created. -/
def SubStart (streamRes : Option GoErr) (opts : SubscribeOptions) : SubAttempt :=
  if opts.Topic = "" then
    ⟨false, .error (NewError ErrCodeValidation
      "topic is required for subscription" none)⟩
  else
    match streamRes with
    | some e => ⟨true, .error (wrapNonNil e "failed to create subscribe stream")⟩
    | none => ⟨true, .ok ()⟩

/-- CountMessages from client.go: an empty topic is rejected locally with a
validation error before the RPC is issued; otherwise the single
request/response RPC outcome (`rpc`) is translated or returned. The first
component records whether the RPC was issued. -/
def CountMessages (rpc : Except GoErr Int) (topic : String) :
    Bool × Except TogoMQError Int :=
  if topic = "" then
    (false, .error (NewError ErrCodeValidation
      "topic is required for counting messages" none))
  else
    match rpc with
    | .error e => (true, .error (wrapNonNil e "failed to count messages"))
    | .ok n => (true, .ok n)

/-- C5: WrapGRPCError maps nil to nil; Unauthenticated to the
authentication category, InvalidArgument to validation, Unavailable to
connection, every other recognized status code to stream, and every
unrecognized error to stream; and every non-nil result wraps the original
error, retrievable by unwrapping. -/
theorem wrapGRPCError_classification :
    (∀ context, WrapGRPCError none context = none) ∧
    (∀ m context, (wrapNonNil (.grpcStatus .unauthenticated m) context).Code =
      ErrCodeAuth) ∧
    (∀ m context, (wrapNonNil (.grpcStatus .invalidArgument m) context).Code =
      ErrCodeValidation) ∧
    (∀ m context, (wrapNonNil (.grpcStatus .unavailable m) context).Code =
      ErrCodeConnection) ∧
    (∀ c m context, c ≠ GrpcCode.unauthenticated → c ≠ GrpcCode.invalidArgument →
      c ≠ GrpcCode.unavailable →
      (wrapNonNil (.grpcStatus c m) context).Code = ErrCodeStream) ∧
    (∀ m context, (wrapNonNil (.plain m) context).Code = ErrCodeStream) ∧
    (∀ e context, (wrapNonNil e context).unwrapErr = some e) ∧
    (∀ e context, WrapGRPCError (some e) context = some (wrapNonNil e context)) := by
  refine ⟨fun _ => rfl, fun _ _ => rfl, fun _ _ => rfl, fun _ _ => rfl,
    ?_, fun _ _ => rfl, ?_, fun _ _ => rfl⟩
  · intro c m context h1 h2 h3
    cases c <;> simp_all [wrapNonNil, statusFromError, NewError]
  · intro e context
    cases e with
    | grpcStatus c m =>
      cases c <;> rfl
    | plain m => rfl

/-- Witness for C5 at a concrete status code outside the three special
cases: Internal maps to the stream category. -/
theorem wrapGRPCError_classification_witness :
    (wrapNonNil (.grpcStatus .internal "boom") "count").Code = ErrCodeStream :=
  wrapGRPCError_classification.2.2.2.2.1 GrpcCode.internal "boom" "count"
    (by decide) (by decide) (by decide)

/-- C6: Sub with an empty topic pattern and CountMessages with an empty
topic each return a locally constructed validation-category error, with
the transport untouched (no stream creation, no RPC). -/
theorem emptyTopic_local_validation :
    ∀ (streamRes : Option GoErr) (batch speed : Int) (rpc : Except GoErr Int),
      SubStart streamRes ⟨"", batch, speed⟩ =
        ⟨false, .error (NewError ErrCodeValidation
          "topic is required for subscription" none)⟩ ∧
      CountMessages rpc "" =
        (false, .error (NewError ErrCodeValidation
          "topic is required for counting messages" none)) ∧
      (NewError ErrCodeValidation "topic is required for subscription"
        none).Code = ErrCodeValidation ∧
      (NewError ErrCodeValidation "topic is required for counting messages"
        none).Code = ErrCodeValidation := by
  intro streamRes batch speed rpc
  exact ⟨rfl, rfl, rfl, rfl⟩

/-- C9 counterexample: for a max-message-size of 2^31 the window sizes are
set to int32(2^31) = -2^31, not to the same value 2^31, so applying the
max-message-size option does not in general set the window sizes to the
given value. -/
theorem withMaxMessageSize_not_same_value :
    (NewConfig [WithMaxMessageSize (2 ^ 31)]).MaxMessageSize = 2 ^ 31 ∧
    (NewConfig [WithMaxMessageSize (2 ^ 31)]).InitialWindowSize = -2 ^ 31 ∧
    (NewConfig [WithMaxMessageSize (2 ^ 31)]).InitialWindowSize ≠ 2 ^ 31 := by
  refine ⟨rfl, ?_, ?_⟩ <;> decide

/-- C9 (amended): applying the max-message-size option sets MaxMessageSize
to the size and both flow-control window sizes to int32(size) — the same
value whenever the size fits in int32 — and NewConfig applies its options
in order over the defaults, so a window-size option listed after the
max-message-size option overrides the window value while one listed
before it is overwritten (later options win). -/
theorem withMaxMessageSize_order :
    (∀ (c : Config) (s : Int), WithMaxMessageSize s c =
      { c with MaxMessageSize := s, InitialWindowSize := toInt32 s,
               InitialConnWindowSize := toInt32 s }) ∧
    (∀ opts, NewConfig opts =
      opts.foldl (fun cfg opt => opt cfg) DefaultConfig) ∧
    (∀ s, (NewConfig [WithMaxMessageSize s]).MaxMessageSize = s ∧
      (NewConfig [WithMaxMessageSize s]).InitialWindowSize = toInt32 s ∧
      (NewConfig [WithMaxMessageSize s]).InitialConnWindowSize = toInt32 s) ∧
    (∀ s, 0 ≤ s → s < 2 ^ 31 →
      (NewConfig [WithMaxMessageSize s]).InitialWindowSize = s ∧
      (NewConfig [WithMaxMessageSize s]).InitialConnWindowSize = s) ∧
    (∀ s w, (NewConfig [WithMaxMessageSize s,
      WithInitialWindowSize w]).InitialWindowSize = w) ∧
    (∀ s w, (NewConfig [WithMaxMessageSize s,
      WithInitialConnWindowSize w]).InitialConnWindowSize = w) ∧
    (∀ s w, (NewConfig [WithInitialWindowSize w,
      WithMaxMessageSize s]).InitialWindowSize = toInt32 s) ∧
    (∀ s w, (NewConfig [WithInitialConnWindowSize w,
      WithMaxMessageSize s]).InitialConnWindowSize = toInt32 s) := by
  refine ⟨fun _ _ => rfl, fun _ => rfl, fun _ => ⟨rfl, rfl, rfl⟩, ?_,
    fun _ _ => rfl, fun _ _ => rfl, fun _ _ => rfl, fun _ _ => rfl⟩
  intro s h0 h31
  have ht : toInt32 s = s := by
    unfold toInt32
    omega
  constructor
  · show toInt32 s = s
    exact ht
  · show toInt32 s = s
    exact ht

/-- Witness for C9 (amended) at size 1024: both window sizes equal 1024
after applying the max-message-size option alone. -/
theorem withMaxMessageSize_order_witness :
    (0:Int) ≤ 1024 ∧ (1024:Int) < 2 ^ 31 ∧
    (NewConfig [WithMaxMessageSize 1024]).InitialWindowSize = 1024 ∧
    (NewConfig [WithMaxMessageSize 1024]).InitialConnWindowSize = 1024 :=
  ⟨by decide, by decide,
    (withMaxMessageSize_order.2.2.2.1 1024 (by decide) (by decide)).1,
    (withMaxMessageSize_order.2.2.2.1 1024 (by decide) (by decide)).2⟩

/-- C10: for 2^31 ≤ s < 2^32, WithMaxMessageSize truncates s to int32 when
assigning the window sizes, which therefore equal s - 2^32 and are not
positive; a config built from defaults plus a valid token and such a
max-message-size fails Validate with "initial window size must be greater
than 0" even though MaxMessageSize = s is positive. -/
theorem withMaxMessageSize_truncation (s : Int)
    (h1 : 2 ^ 31 ≤ s) (h2 : s < 2 ^ 32) :
    (NewConfig [WithToken "tok", WithMaxMessageSize s]).MaxMessageSize = s ∧
    0 < (NewConfig [WithToken "tok", WithMaxMessageSize s]).MaxMessageSize ∧
    (NewConfig [WithToken "tok",
      WithMaxMessageSize s]).InitialWindowSize = s - 2 ^ 32 ∧
    (NewConfig [WithToken "tok",
      WithMaxMessageSize s]).InitialConnWindowSize = s - 2 ^ 32 ∧
    ¬ 0 < (NewConfig [WithToken "tok",
      WithMaxMessageSize s]).InitialWindowSize ∧
    (NewConfig [WithToken "tok", WithMaxMessageSize s]).validate =
      some "initial window size must be greater than 0" := by
  have ht : toInt32 s = s - 2 ^ 32 := by
    unfold toInt32
    omega
  refine ⟨rfl, by show (0:Int) < s; omega, ht, ht,
    by show ¬ (0:Int) < toInt32 s; omega, ?_⟩
  have hhost : ¬ (trimSpace (NewConfig [WithToken "tok",
      WithMaxMessageSize s]).Host = "") := by
    show ¬ (trimSpace "q.togomq.io" = "")
    decide
  have hport : ¬ ((NewConfig [WithToken "tok",
        WithMaxMessageSize s]).Port ≤ 0 ∨
      65535 < (NewConfig [WithToken "tok", WithMaxMessageSize s]).Port) := by
    show ¬ ((5123:Int) ≤ 0 ∨ (65535:Int) < 5123)
    decide
  have htok : ¬ (trimSpace (NewConfig [WithToken "tok",
      WithMaxMessageSize s]).Token = "") := by
    show ¬ (trimSpace "tok" = "")
    decide
  have hmax : ¬ ((NewConfig [WithToken "tok",
      WithMaxMessageSize s]).MaxMessageSize ≤ 0) := by
    show ¬ (s ≤ 0)
    omega
  have hwin : (NewConfig [WithToken "tok",
      WithMaxMessageSize s]).InitialWindowSize ≤ 0 := by
    show toInt32 s ≤ 0
    omega
  simp only [Config.validate]
  rw [if_neg hhost, if_neg hport, if_neg htok, if_neg hmax, if_pos hwin]

/-- Witness for C10 at s = 2^31: the window sizes become -2^31 and the
config fails validation on the window-size invariant. -/
theorem withMaxMessageSize_truncation_witness :
    ((2:Int) ^ 31 ≤ 2 ^ 31 ∧ (2:Int) ^ 31 < 2 ^ 32) ∧
    (NewConfig [WithToken "tok",
      WithMaxMessageSize (2 ^ 31)]).InitialWindowSize = 2 ^ 31 - 2 ^ 32 ∧
    (NewConfig [WithToken "tok", WithMaxMessageSize (2 ^ 31)]).validate =
      some "initial window size must be greater than 0" :=
  ⟨⟨by decide, by decide⟩,
    (withMaxMessageSize_truncation (2 ^ 31) (by decide) (by decide)).2.2.1,
    (withMaxMessageSize_truncation (2 ^ 31) (by decide) (by decide)).2.2.2.2.2⟩

set_option maxHeartbeats 2000000 in
/-- C7: Validate returns none exactly when all invariants hold, and
otherwise the first violated invariant in source order, with exactly the
fixed message string for that invariant. -/
theorem validate_first_violation (c : Config) :
    (c.validate = none ↔
      (trimSpace c.Host ≠ "" ∧ 1 ≤ c.Port ∧ c.Port ≤ 65535 ∧
       trimSpace c.Token ≠ "" ∧ 0 < c.MaxMessageSize ∧
       0 < c.InitialWindowSize ∧ 0 < c.InitialConnWindowSize ∧
       0 < c.WriteBufferSize ∧ 0 < c.ReadBufferSize ∧
       0 < c.KeepaliveTime ∧ 0 < c.KeepaliveTimeout)) ∧
    (trimSpace c.Host = "" → c.validate = some "host cannot be empty") ∧
    (trimSpace c.Host ≠ "" → ¬(1 ≤ c.Port ∧ c.Port ≤ 65535) →
      c.validate = some "port must be between 1 and 65535") ∧
    (trimSpace c.Host ≠ "" → (1 ≤ c.Port ∧ c.Port ≤ 65535) →
      trimSpace c.Token = "" → c.validate = some "token is required") ∧
    (trimSpace c.Host ≠ "" → (1 ≤ c.Port ∧ c.Port ≤ 65535) →
      trimSpace c.Token ≠ "" → c.MaxMessageSize ≤ 0 →
      c.validate = some "max message size must be greater than 0") ∧
    (trimSpace c.Host ≠ "" → (1 ≤ c.Port ∧ c.Port ≤ 65535) →
      trimSpace c.Token ≠ "" → 0 < c.MaxMessageSize →
      c.InitialWindowSize ≤ 0 →
      c.validate = some "initial window size must be greater than 0") ∧
    (trimSpace c.Host ≠ "" → (1 ≤ c.Port ∧ c.Port ≤ 65535) →
      trimSpace c.Token ≠ "" → 0 < c.MaxMessageSize →
      0 < c.InitialWindowSize → c.InitialConnWindowSize ≤ 0 →
      c.validate = some "initial connection window size must be greater than 0") ∧
    (trimSpace c.Host ≠ "" → (1 ≤ c.Port ∧ c.Port ≤ 65535) →
      trimSpace c.Token ≠ "" → 0 < c.MaxMessageSize →
      0 < c.InitialWindowSize → 0 < c.InitialConnWindowSize →
      c.WriteBufferSize ≤ 0 →
      c.validate = some "write buffer size must be greater than 0") ∧
    (trimSpace c.Host ≠ "" → (1 ≤ c.Port ∧ c.Port ≤ 65535) →
      trimSpace c.Token ≠ "" → 0 < c.MaxMessageSize →
      0 < c.InitialWindowSize → 0 < c.InitialConnWindowSize →
      0 < c.WriteBufferSize → c.ReadBufferSize ≤ 0 →
      c.validate = some "read buffer size must be greater than 0") ∧
    (trimSpace c.Host ≠ "" → (1 ≤ c.Port ∧ c.Port ≤ 65535) →
      trimSpace c.Token ≠ "" → 0 < c.MaxMessageSize →
      0 < c.InitialWindowSize → 0 < c.InitialConnWindowSize →
      0 < c.WriteBufferSize → 0 < c.ReadBufferSize →
      c.KeepaliveTime ≤ 0 →
      c.validate = some "keepalive time must be greater than 0") ∧
    (trimSpace c.Host ≠ "" → (1 ≤ c.Port ∧ c.Port ≤ 65535) →
      trimSpace c.Token ≠ "" → 0 < c.MaxMessageSize →
      0 < c.InitialWindowSize → 0 < c.InitialConnWindowSize →
      0 < c.WriteBufferSize → 0 < c.ReadBufferSize →
      0 < c.KeepaliveTime → c.KeepaliveTimeout ≤ 0 →
      c.validate = some "keepalive timeout must be greater than 0") := by
  refine ⟨?_, ?_, ?_, ?_, ?_, ?_, ?_, ?_, ?_, ?_, ?_⟩
  · constructor
    · intro hv
      unfold Config.validate at hv
      split_ifs at hv with h1 h2 h3 h4 h5 h6 h7 h8 h9 h10
      exact ⟨h1, by omega, by omega, h3, by omega, by omega, by omega,
        by omega, by omega, by omega, by omega⟩
    · rintro ⟨g1, g2a, g2b, g3, g4, g5, g6, g7, g8, g9, g10⟩
      unfold Config.validate
      rw [if_neg g1, if_neg (by omega), if_neg g3, if_neg (by omega),
        if_neg (by omega), if_neg (by omega), if_neg (by omega),
        if_neg (by omega), if_neg (by omega), if_neg (by omega)]
  · intro hh
    unfold Config.validate
    rw [if_pos hh]
  · intro hh hp
    unfold Config.validate
    rw [if_neg hh, if_pos (by omega)]
  · intro hh hp ht
    unfold Config.validate
    rw [if_neg hh, if_neg (by omega), if_pos ht]
  · intro hh hp ht h4
    unfold Config.validate
    rw [if_neg hh, if_neg (by omega), if_neg ht, if_pos (by omega)]
  · intro hh hp ht h4 h5
    unfold Config.validate
    rw [if_neg hh, if_neg (by omega), if_neg ht, if_neg (by omega),
      if_pos (by omega)]
  · intro hh hp ht h4 h5 h6
    unfold Config.validate
    rw [if_neg hh, if_neg (by omega), if_neg ht, if_neg (by omega),
      if_neg (by omega), if_pos (by omega)]
  · intro hh hp ht h4 h5 h6 h7
    unfold Config.validate
    rw [if_neg hh, if_neg (by omega), if_neg ht, if_neg (by omega),
      if_neg (by omega), if_neg (by omega), if_pos (by omega)]
  · intro hh hp ht h4 h5 h6 h7 h8
    unfold Config.validate
    rw [if_neg hh, if_neg (by omega), if_neg ht, if_neg (by omega),
      if_neg (by omega), if_neg (by omega), if_neg (by omega),
      if_pos (by omega)]
  · intro hh hp ht h4 h5 h6 h7 h8 h9
    unfold Config.validate
    rw [if_neg hh, if_neg (by omega), if_neg ht, if_neg (by omega),
      if_neg (by omega), if_neg (by omega), if_neg (by omega),
      if_neg (by omega), if_pos (by omega)]
  · intro hh hp ht h4 h5 h6 h7 h8 h9 h10
    unfold Config.validate
    rw [if_neg hh, if_neg (by omega), if_neg ht, if_neg (by omega),
      if_neg (by omega), if_neg (by omega), if_neg (by omega),
      if_neg (by omega), if_neg (by omega), if_pos (by omega)]

/-- Witness for C7: the default configuration (host and port valid, token
empty) fails validation with exactly the token message. -/
theorem validate_first_violation_witness :
    DefaultConfig.validate = some "token is required" :=
  (validate_first_violation DefaultConfig).2.2.2.1 (by decide) (by decide)
    (by decide)

/-- C8 (code evaluated at the failing input): the transport connection is
configured as a projection of the config's tuning fields for frame size,
window sizes, buffer sizes and keepalive — but TLS is always enabled
(`credentials.NewTLS(nil)` is unconditional), so a config accepted by
NewClient with UseTLS = false still dials with TLS on, contradicting the
claim and the UseTLS field's own documentation. -/
theorem newClient_tls_ignores_config :
    (∀ c : Config, dialOptionsOf c =
      { useTLS := true
        maxRecvMsgSize := c.MaxMessageSize
        maxSendMsgSize := c.MaxMessageSize
        initialWindowSize := c.InitialWindowSize
        initialConnWindowSize := c.InitialConnWindowSize
        writeBufferSize := c.WriteBufferSize
        readBufferSize := c.ReadBufferSize
        keepaliveTime := c.KeepaliveTime
        keepaliveTimeout := c.KeepaliveTimeout
        permitWithoutStream := false }) ∧
    (NewConfig [WithToken "t", WithUseTLS false]).UseTLS = false ∧
    NewClient (NewConfig [WithToken "t", WithUseTLS false]) =
      .ok (dialOptionsOf (NewConfig [WithToken "t", WithUseTLS false])) ∧
    (dialOptionsOf (NewConfig [WithToken "t", WithUseTLS false])).useTLS
      = true :=
  ⟨fun _ => rfl, rfl, rfl, rfl⟩

/-- Folding channel sends over a buffer appends the messages in order. -/
theorem foldl_chanSend_buf (msgs : List Message) :
    ∀ (acc : List Message) (cl : Bool),
      msgs.foldl chanSend ⟨acc, cl⟩ = ⟨acc ++ msgs, cl⟩ := by
  induction msgs with
  | nil => intro acc cl; simp
  | cons m rest ih =>
    intro acc cl
    have : chanSend ⟨acc, cl⟩ m = ⟨acc ++ [m], cl⟩ := rfl
    simp [List.foldl_cons, this, ih]

/-- C4: PubBatch equals Pub on a channel pre-filled with the slice's
elements in order and closed before Pub runs, for every transport
behavior and every slice. -/
theorem pubBatch_eq_pub_closed_channel (st : PubStream) (msgs : List Message) :
    PubBatch st msgs = Pub st ⟨msgs, true⟩ := by
  unfold PubBatch
  rw [foldl_chanSend_buf]
  rfl

/-- The send loop hits the first empty-topic message after sending exactly
the earlier messages, provided those have non-empty topics and their
sends succeed. -/
theorem pubSendLoop_empty_topic (st : PubStream) (m : Message)
    (post : List Message) (hm : m.Topic = "") :
    ∀ (pre : List Message) (i : Nat) (sent : List PubMessageRequest),
      (∀ x ∈ pre, x.Topic ≠ "") →
      (∀ k, k < pre.length → st.sendErr (i + k) = none) →
      pubSendLoop st i sent (pre ++ m :: post) =
        (sent ++ pre.map Message.toPubRequest,
         .error (NewError ErrCodeValidation "message topic is required" none)) := by
  intro pre
  induction pre with
  | nil =>
    intro i sent _ _
    simp [pubSendLoop, hm]
  | cons x xs ih =>
    intro i sent hpre hsend
    have hx : x.Topic ≠ "" := hpre x (by simp)
    have h0 : st.sendErr i = none := by
      have h := hsend 0 (by simp)
      simpa using h
    have hrec := ih (i + 1) (sent ++ [x.toPubRequest])
      (fun y hy => hpre y (by simp [hy]))
      (fun k hk => by
        have harith : i + 1 + k = i + (k + 1) := by omega
        rw [harith]
        exact hsend (k + 1) (by simpa using Nat.succ_lt_succ hk))
    rw [List.cons_append]
    simp only [pubSendLoop, if_neg hx, h0]
    exact hrec.trans (by simp)

/-- C3: when the input channel's drained contents are valid messages
followed by a first empty-topic message, Pub sends exactly the earlier
messages to the stream, in order, then returns a validation-category
error without closing its half of the stream or waiting for the server
acknowledgement. -/
theorem pub_partial_send_on_empty_topic (st : PubStream) (pre : List Message)
    (m : Message) (post : List Message)
    (hcreate : st.createErr = none)
    (hpre : ∀ x ∈ pre, x.Topic ≠ "")
    (hsend : ∀ k, k < pre.length → st.sendErr k = none)
    (hm : m.Topic = "") :
    Pub st ⟨pre ++ m :: post, true⟩ =
      some ⟨pre.map Message.toPubRequest, false,
        .error (NewError ErrCodeValidation "message topic is required" none)⟩ := by
  have hloop := pubSendLoop_empty_topic st m post hm pre 0 [] hpre
    (fun k hk => by simpa using hsend k hk)
  simp only [Pub, hcreate, hloop]
  rfl

/-- Witness for C3: one valid message then one empty-topic message on an
otherwise healthy transport. -/
theorem pub_partial_send_on_empty_topic_witness :
    Pub ⟨none, fun _ => none, .ok 0⟩
        ⟨[NewMessage "a" [], NewMessage "" []], true⟩ =
      some ⟨[(NewMessage "a" []).toPubRequest], false,
        .error (NewError ErrCodeValidation "message topic is required" none)⟩ :=
  pub_partial_send_on_empty_topic ⟨none, fun _ => none, .ok 0⟩
    [NewMessage "a" []] (NewMessage "" []) [] rfl (by decide)
    (fun _ _ => rfl) rfl

/-- Deliveries contribute nothing to the error channel. -/
theorem errsPushed_deliver_append (ds : List Message) (rest : List PumpAct) :
    errsPushed (ds.map PumpAct.deliver ++ rest) = errsPushed rest := by
  induction ds with
  | nil => rfl
  | cons d ds ih => simpa [errsPushed, List.filterMap_cons] using ih

/-- Deliveries at the front of a trace are the delivered messages. -/
theorem deliveredMsgs_deliver_append (ds : List Message) (rest : List PumpAct) :
    deliveredMsgs (ds.map PumpAct.deliver ++ rest) = ds ++ deliveredMsgs rest := by
  induction ds with
  | nil => rfl
  | cons d ds ih => simpa [deliveredMsgs, List.filterMap_cons] using ih

/-- Deliveries do not close the error channel. -/
theorem errChanClosed_deliver_append (ds : List Message) (rest : List PumpAct) :
    errChanClosed (ds.map PumpAct.deliver ++ rest) = errChanClosed rest := by
  induction ds with
  | nil => rfl
  | cons d ds ih => simpa [errChanClosed] using ih

/-- Deliveries do not close the message channel. -/
theorem msgChanClosed_deliver_append (ds : List Message) (rest : List PumpAct) :
    msgChanClosed (ds.map PumpAct.deliver ++ rest) = msgChanClosed rest := by
  induction ds with
  | nil => rfl
  | cons d ds ih => simpa [msgChanClosed] using ih

/-- Every terminating pump run has a cause, and its trace is the delivered
messages followed by the terminal actions determined by that cause: a
single translated error push (for a receive failure) and the two channel
closes, in defer order. -/
theorem subPump_shape (evs : List SubEvent) (tr : List PumpAct)
    (h : subPump evs = some tr) :
    ∃ ds : List Message,
      (∃ e, causeOf evs = some (.failed e) ∧
        tr = ds.map PumpAct.deliver ++
          [.pushErr (wrapNonNil e "failed to receive message"),
           .closeErrChan, .closeMsgChan]) ∨
      ((causeOf evs = some .eofClean ∨ causeOf evs = some .cancelledCtx) ∧
        tr = ds.map PumpAct.deliver ++ [.closeErrChan, .closeMsgChan]) := by
  induction evs generalizing tr with
  | nil => exact absurd h (by simp [subPump])
  | cons ev rest ih =>
    cases ev with
    | eofEnd =>
      refine ⟨[], Or.inr ⟨Or.inl rfl, ?_⟩⟩
      simp only [subPump, Option.some_inj] at h
      simp [← h]
    | recvFail e =>
      refine ⟨[], Or.inl ⟨e, rfl, ?_⟩⟩
      simp only [subPump, Option.some_inj] at h
      simp [← h]
    | frame r accepted =>
      cases accepted with
      | true =>
        simp only [subPump, Option.map_eq_some'] at h
        obtain ⟨tr', h', rfl⟩ := h
        obtain ⟨ds, hcase⟩ := ih tr' h'
        refine ⟨fromSubResponse r :: ds, ?_⟩
        rcases hcase with ⟨e, hc, htr⟩ | ⟨hc, htr⟩
        · exact Or.inl ⟨e, hc, by simp [htr]⟩
        · exact Or.inr ⟨hc, by simp [htr]⟩
      | false =>
        refine ⟨[], Or.inr ⟨Or.inr rfl, ?_⟩⟩
        simp only [subPump, Option.some_inj] at h
        simp [← h]

/-- C1: whenever the subscribe pump terminates, it closes both channels; a
value appears on the error channel if and only if the pump observed a
receive failure other than clean end-of-stream, and in that case exactly
one translated error is placed before the channel closes; on clean
end-of-stream (and on cancellation) nothing is ever placed on the error
channel. -/
theorem sub_pump_termination_protocol (evs : List SubEvent)
    (tr : List PumpAct) (h : subPump evs = some tr) :
    errChanClosed tr = true ∧ msgChanClosed tr = true ∧
    (errsPushed tr).length ≤ 1 ∧
    (errsPushed tr ≠ [] ↔ ∃ e, causeOf evs = some (.failed e)) ∧
    (∀ e, causeOf evs = some (.failed e) →
      tr = (deliveredMsgs tr).map PumpAct.deliver ++
        [.pushErr (wrapNonNil e "failed to receive message"),
         .closeErrChan, .closeMsgChan]) ∧
    (causeOf evs = some .eofClean → errsPushed tr = []) ∧
    (causeOf evs = some .cancelledCtx → errsPushed tr = []) := by
  obtain ⟨ds, hcase⟩ := subPump_shape evs tr h
  rcases hcase with ⟨e, hc, htr⟩ | ⟨hc, htr⟩
  · subst htr
    refine ⟨?_, ?_, ?_, ?_, ?_, ?_, ?_⟩
    · rw [errChanClosed_deliver_append]; rfl
    · rw [msgChanClosed_deliver_append]; rfl
    · rw [errsPushed_deliver_append]; rfl
    · rw [errsPushed_deliver_append]
      exact ⟨fun _ => ⟨e, hc⟩,
        fun _ => by simp [errsPushed, List.filterMap_cons]⟩
    · intro e' he'
      rw [hc] at he'
      have h2 := Option.some_inj.mp he'
      rw [PumpCause.failed.injEq] at h2
      subst h2
      rw [deliveredMsgs_deliver_append]
      simp [deliveredMsgs, List.filterMap_cons]
    · intro hbad
      rw [hc] at hbad
      simp at hbad
    · intro hbad
      rw [hc] at hbad
      simp at hbad
  · subst htr
    refine ⟨?_, ?_, ?_, ?_, ?_, ?_, ?_⟩
    · rw [errChanClosed_deliver_append]; rfl
    · rw [msgChanClosed_deliver_append]; rfl
    · rw [errsPushed_deliver_append]
      simp [errsPushed, List.filterMap_cons]
    · rw [errsPushed_deliver_append]
      constructor
      · intro hne; exact absurd rfl hne
      · rintro ⟨e, he⟩
        rcases hc with hc | hc <;> rw [hc] at he <;> simp at he
    · intro e' he'
      rcases hc with hc | hc <;> rw [hc] at he' <;> simp at he'
    · intro _; rw [errsPushed_deliver_append]; rfl
    · intro _; rw [errsPushed_deliver_append]; rfl

/-- Witness for C1: a stream that ends cleanly right away terminates the
pump with both channels closed and nothing on the error channel. -/
theorem sub_pump_termination_protocol_witness :
    subPump [SubEvent.eofEnd] =
      some [PumpAct.closeErrChan, PumpAct.closeMsgChan] ∧
    errChanClosed [PumpAct.closeErrChan, PumpAct.closeMsgChan] = true ∧
    msgChanClosed [PumpAct.closeErrChan, PumpAct.closeMsgChan] = true :=
  ⟨rfl, (sub_pump_termination_protocol [SubEvent.eofEnd] _ rfl).1,
    (sub_pump_termination_protocol [SubEvent.eofEnd] _ rfl).2.1⟩

/-- The pump delivers each accepted frame in order and continues. -/
theorem subPump_accepted_frames (pre : List SubMessageResponse)
    (evs : List SubEvent) :
    subPump (pre.map (fun x => SubEvent.frame x true) ++ evs) =
      (subPump evs).map
        (fun tr => (pre.map fun x => PumpAct.deliver (fromSubResponse x)) ++ tr) := by
  induction pre with
  | nil => simp
  | cons x xs ih =>
    have step : subPump (SubEvent.frame x true ::
        (List.map (fun x => SubEvent.frame x true) xs ++ evs)) =
      (subPump (List.map (fun x => SubEvent.frame x true) xs ++ evs)).map
        (fun tr => PumpAct.deliver (fromSubResponse x) :: tr) := rfl
    rw [List.map_cons, List.cons_append, step, ih, Option.map_map]
    rcases subPump evs with _ | tr
    · rfl
    · rfl

/-- Accepted frames do not decide the termination cause. -/
theorem causeOf_accepted_frames (pre : List SubMessageResponse)
    (evs : List SubEvent) :
    causeOf (pre.map (fun x => SubEvent.frame x true) ++ evs) = causeOf evs := by
  induction pre with
  | nil => rfl
  | cons x xs ih => simpa [causeOf] using ih

/-- C2: if the context is cancelled while a decoded message is pending
delivery, the pump terminates immediately: it closes both channels, puts
nothing on the error channel, delivers exactly the earlier accepted
messages, and neither the pending message nor anything after the
cancellation is delivered. -/
theorem sub_cancel_drops_pending (pre : List SubMessageResponse)
    (r : SubMessageResponse) (post : List SubEvent) :
    subPump (pre.map (fun x => SubEvent.frame x true) ++
        SubEvent.frame r false :: post) =
      some ((pre.map fun x => PumpAct.deliver (fromSubResponse x)) ++
        [.closeErrChan, .closeMsgChan]) ∧
    errsPushed ((pre.map fun x => PumpAct.deliver (fromSubResponse x)) ++
        [.closeErrChan, .closeMsgChan]) = [] ∧
    deliveredMsgs ((pre.map fun x => PumpAct.deliver (fromSubResponse x)) ++
        [.closeErrChan, .closeMsgChan]) = pre.map fromSubResponse ∧
    causeOf (pre.map (fun x => SubEvent.frame x true) ++
        SubEvent.frame r false :: post) = some .cancelledCtx := by
  have hmap : (pre.map fun x => PumpAct.deliver (fromSubResponse x)) =
      (pre.map fromSubResponse).map PumpAct.deliver := by
    simp [List.map_map]
  refine ⟨?_, ?_, ?_, ?_⟩
  · rw [subPump_accepted_frames]
    rfl
  · rw [hmap, errsPushed_deliver_append]
    rfl
  · rw [hmap, deliveredMsgs_deliver_append]
    simp [deliveredMsgs]
  · rw [causeOf_accepted_frames]
    rfl

end TogoMQ
